import Mathlib

/-
Verification of the `reposcore` GitHub utility module
(`reposcore/github_utils.py`): repository-identifier validation,
token validation, repository-existence checking, rate-limit reporting,
and the retry-wrapped HTTP GET they all delegate to.

The embedding is shallow: the HTTP transport is a function from the
attempt index to either a transport-level error (a raised exception)
or a `Response`; a session maps each GET call (url, params, headers)
to such a transport.  Python exceptions that escape a function are
modelled with `Except`; logging and printing are modelled as returned
lists of events.
-/

set_option autoImplicit false

namespace Reposcore

/-- A JSON value, as decoded by `response.json()`.  The `obj` constructor
holds the fields of a JSON object in order. -/
inductive Json where
  | null : Json
  | num (n : Int) : Json
  | str (s : String) : Json
  | obj (fields : List (String × Json)) : Json

/-- A Python exception raised by the body of a function (beyond the
transport errors, which are modelled separately): calling `.get` on a
value that is not a dict raises `AttributeError`. -/
inductive PyErr where
  | attributeError : PyErr
deriving DecidableEq, Repr

/-- Whether a JSON value is an object (a Python dict after decoding). -/
def Json.isObj : Json → Bool
  | .obj _ => true
  | _ => false

/-- Python `value.get(key, default)`: succeeds with the looked-up field
(or the default when the key is absent) when `value` is a dict, and
raises `AttributeError` otherwise. -/
def dictGet (j : Json) (k : String) (default : Json) : Except PyErr Json :=
  match j with
  | .obj fields => Except.ok ((List.lookup k fields).getD default)
  | _ => Except.error PyErr.attributeError

mutual

/-- Python `str()` of a decoded JSON value, as interpolated into an
f-string. -/
def pyStr : Json → String
  | .null => "None"
  | .num n => toString n
  | .str s => s
  | .obj fields => "\x7b" ++ pyStrFields fields ++ "\x7d"

/-- Rendering of the fields of a dict, comma-separated. -/
def pyStrFields : List (String × Json) → String
  | [] => ""
  | [(k, v)] => "\x27" ++ k ++ "\x27: " ++ pyStr v
  | (k, v) :: rest => "\x27" ++ k ++ "\x27: " ++ pyStr v ++ ", " ++ pyStrFields rest

end

/-- A transport-level failure: an exception raised while sending or
receiving over the network (e.g. `ConnectionError`), carrying its
display message. -/
structure TransportError where
  msg : String
deriving DecidableEq, Repr

/-- An HTTP response: status code plus decoded body.  Opaque to the
retry layer except for the raised-vs-returned distinction. -/
structure Response where
  status_code : Int
  body : Json

/-- Outcome of one attempt of the transport: either a raised
transport-level error or a received response. -/
abbrev Attempt := Except TransportError Response

/-- The behaviour of the underlying transport for one GET call: the
outcome of each attempt, indexed from 0. -/
abbrev Transport := Nat → Attempt

/-- Trace of one call of the retry wrapper: the final outcome (returned
response or re-raised error), the total number of transport
invocations, and the list of sleeps performed between attempts. -/
structure RetryTrace where
  result : Attempt
  attempts : Nat
  delays : List ℚ

/-- Modelled from the spec: the retry loop of the `retry` decorator
(`reposcore/retry_decorator.py` is imported by `github_utils.py` but is
not part of the sources).  `remaining` counts the attempts still allowed
after the current one.  Attempt the GET at index `idx`; on a
transport-level error wait `delay` and retry, and when no attempt
remains, re-raise the last captured error. -/
def retryAux (t : Transport) (delay : ℚ) (idx : Nat) : Nat → RetryTrace
  | 0 => { result := t idx, attempts := 1, delays := [] }
  | n + 1 =>
    match t idx with
    | Except.ok r => { result := Except.ok r, attempts := 1, delays := [] }
    | Except.error _ =>
      let rest := retryAux t delay (idx + 1) n
      { result := rest.result, attempts := rest.attempts + 1, delays := delay :: rest.delays }

/-- Modelled from the spec: `retry_request`, the retry-wrapped GET.
It performs up to `maxAttempts` total attempts (including the first),
sleeping `delay` time-units between consecutive attempts, returns the
response of the first attempt that completes without raising regardless
of its status code, and re-raises the last captured error when every
attempt raises (spec section 4.1). -/
def retry_request (t : Transport) (delay : ℚ) (maxAttempts : Nat) : RetryTrace :=
  retryAux t delay 0 (maxAttempts - 1)

/-- Modelled from the spec: the retry policy declared at the decorator
site, `retry(max_retries=3, retry_delay=1.0)`, gives 3 total attempts
(spec section 8: a transport raising `ConnectionError` on all 3
attempts exhausts the budget). -/
def defaultMaxAttempts : Nat := 3

/-- Modelled from the spec: the default inter-attempt delay,
`retry_delay=1.0` time-units. -/
def defaultRetryDelay : ℚ := 1

/-- One GET call as issued through `retry_request`: target URL, optional
query parameters, optional headers. -/
structure GetCall where
  url : String
  params : Option (List (String × String))
  headers : Option (List (String × String))

/-- The behaviour of `session.get` for each call: a transport giving the
outcome of every attempt of that call. -/
abbrev Session := GetCall → Transport

/-- Severity of a `logging` call. -/
inductive LogLevel where
  | info : LogLevel
  | warning : LogLevel
  | error : LogLevel
deriving DecidableEq, Repr

/-- One emitted log record: level and message. -/
structure LogEvent where
  level : LogLevel
  msg : String
deriving DecidableEq, Repr

/-- The header dict each function builds: `Accept` and `User-Agent`
always, and `Authorization: token <value>` added when
`os.getenv("GITHUB_TOKEN")` is truthy (present and non-empty).  The
source repeats this block verbatim in `validate_token`,
`check_github_repo_exists` and `check_rate_limit`. -/
def buildHeaders (token : Option String) : List (String × String) :=
  let base := [("Accept", "application/vnd.github+json"), ("User-Agent", "reposcore-py")]
  match token with
  | some t => if t.isEmpty then base else base ++ [("Authorization", "token " ++ t)]
  | none => base

/-- The GET call issued by `validate_token`. -/
def validate_token_call (token : Option String) : GetCall :=
  { url := "https://api.github.com/user", params := none, headers := some (buildHeaders token) }

/-- The GET call issued by `check_github_repo_exists repo`. -/
def repo_exists_call (repo : String) (token : Option String) : GetCall :=
  { url := "https://api.github.com/repos/" ++ repo
    params := none
    headers := some (buildHeaders token) }

/-- The GET call issued by `check_rate_limit`. -/
def rate_limit_call (token : Option String) : GetCall :=
  { url := "https://api.github.com/rate_limit", params := none, headers := some (buildHeaders token) }

/-- How `validate_token` terminates: a normal return or `sys.exit(code)`. -/
inductive ValidateOutcome where
  | ok : ValidateOutcome
  | exit (code : Nat) : ValidateOutcome
deriving DecidableEq, Repr

/-- Embedding of `validate_token`: reads the token from the environment, issues the
retry-wrapped GET to `https://api.github.com/user`; exits with status 1
when the request itself fails after retries or when the response status
is not 200, and returns normally otherwise. -/
def validate_token (token : Option String) (s : Session) : ValidateOutcome × List LogEvent :=
  match (retry_request (s (validate_token_call token)) defaultRetryDelay defaultMaxAttempts).result with
  | Except.error e =>
    (ValidateOutcome.exit 1,
      [⟨LogLevel.error, "❌ 인증 API 요청 자체가 실패했습니다: " ++ e.msg⟩])
  | Except.ok r =>
    if r.status_code ≠ 200 then
      (ValidateOutcome.exit 1,
        [⟨LogLevel.error, "❌ 인증 실패: 잘못된 GitHub 토큰입니다. 토큰 값을 확인해 주세요."⟩])
    else
      (ValidateOutcome.ok, [])

/-- Embedding of `check_github_repo_exists`: issues the retry-wrapped GET to
`https://api.github.com/repos/<repo>`; returns `False` with a warning
when the request itself fails after retries, `True` on a 200 response,
and `False` (with status-specific logging) on any other status. -/
def check_github_repo_exists (repo : String) (token : Option String) (s : Session) :
    Bool × List LogEvent :=
  match (retry_request (s (repo_exists_call repo token)) defaultRetryDelay defaultMaxAttempts).result with
  | Except.error e =>
    (false, [⟨LogLevel.warning, "⚠️ 저장소 존재 확인 API 요청 자체가 실패했습니다: " ++ e.msg⟩])
  | Except.ok r =>
    if r.status_code = 200 then
      (true, [])
    else if r.status_code = 403 then
      (false,
        [⟨LogLevel.warning, "⚠️ GitHub API 요청 실패: 403 (요청 횟수 초과 또는 인증 오류)"⟩,
         ⟨LogLevel.info, "ℹ️ 해결 방법: --token 옵션 또는 GITHUB_TOKEN 환경 변수 사용"⟩])
    else if r.status_code = 404 then
      (false, [⟨LogLevel.warning, "⚠️ 저장소 \x27" ++ repo ++ "\x27가 존재하지 않습니다."⟩])
    else
      (false,
        [⟨LogLevel.warning, "⚠️ 요청 실패: HTTP 상태 코드 " ++ toString r.status_code⟩])

/-- Embedding of `check_rate_limit`: issues the retry-wrapped GET to
`https://api.github.com/rate_limit`.  A transport failure after retries
is caught and logged; a 200 response has
`data.get("resources", {}).get("core", {})` extracted from its JSON body
(`.get` on a non-dict value raises `AttributeError`, which this function
does not catch) with missing keys defaulting to `"N/A"`; any other
status is logged as an error.  The first component is `ok ()` when the
function returns `None` and `error` when it raises. -/
def check_rate_limit (token : Option String) (s : Session) :
    Except PyErr Unit × List LogEvent :=
  match (retry_request (s (rate_limit_call token)) defaultRetryDelay defaultMaxAttempts).result with
  | Except.error e =>
    (Except.ok (), [⟨LogLevel.error, "API 요청 제한 정보를 가져오는데 실패했습니다: " ++ e.msg⟩])
  | Except.ok r =>
    if r.status_code = 200 then
      match dictGet r.body "resources" (Json.obj []) with
      | Except.error pe => (Except.error pe, [])
      | Except.ok resources =>
        match dictGet resources "core" (Json.obj []) with
        | Except.error pe => (Except.error pe, [])
        | Except.ok core =>
          match dictGet core "remaining" (Json.str "N/A") with
          | Except.error pe => (Except.error pe, [])
          | Except.ok remaining =>
            match dictGet core "limit" (Json.str "N/A") with
            | Except.error pe => (Except.error pe, [])
            | Except.ok lim =>
              (Except.ok (),
                [⟨LogLevel.info,
                  "GitHub API 요청 가능 횟수: " ++ pyStr remaining ++ " / " ++ pyStr lim⟩])
    else
      (Except.ok (),
        [⟨LogLevel.error,
          "API 요청 제한 정보를 가져오는데 실패했습니다 (status code: " ++ toString r.status_code ++ ")."⟩])

/-- A character matched by `[\w\-]`: a word character or a hyphen.
Membership in the Unicode-aware Python character class `\w` is taken as
the parameter `w`, in the same way the network transport is a parameter
of the embedding; every theorem below holds for any table in which `/`
is not a word character, in particular the real one. -/
def wordOrHyphen (w : Char → Bool) (c : Char) : Bool := w c || c = '-'

/-- Embedding of `re.fullmatch` of `^[\w\-]+/[\w\-]+$` against the characters of the
candidate string: a non-empty run of `[\w\-]` characters, a single `/`,
then a non-empty run of `[\w\-]` characters reaching the end.  Greedy
matching of `[\w\-]+` is `takeWhile`; since `/` matches neither `\w`
nor `-`, the first run stops exactly at the separator. -/
def repoFullmatch (w : Char → Bool) (cs : List Char) : Bool :=
  let first := cs.takeWhile (wordOrHyphen w)
  let rest := cs.dropWhile (wordOrHyphen w)
  decide (first ≠ []) &&
    match rest with
    | c :: second => decide (c = '/') && decide (second ≠ []) && second.all (wordOrHyphen w)
    | [] => false

/-- Embedding of `validate_repo_format`: `True` when the repository identifier fully
matches `^[\w\-]+/[\w\-]+$` (with `\w` membership given by `w`), else
prints a format message and returns `False`.  The second component is
the list of printed lines. -/
def validate_repo_format (w : Char → Bool) (repo : String) : Bool × List String :=
  if repoFullmatch w repo.data then
    (true, [])
  else
    (false, ["저장소 형식이 올바르지 않습니다. \x27owner/repo\x27 형식으로 입력해주세요."])

/-- The restriction of the `\w` table to ASCII inputs: letters, digits
and underscore.  Used only to evaluate the characterization at concrete
ASCII inputs, on which it coincides with the full Unicode table. -/
def asciiWordChar (c : Char) : Bool := c.isAlphanum || c = '_'

/-- Shape condition on the decoded body of a 200 rate-limit response
under which every `.get` in `check_rate_limit` is applied to a dict: the
body is an object, its `resources` field (when present) is an object,
and the `core` field of that object (when present) is an object. -/
def rateLimitBodySafe (j : Json) : Bool :=
  match j with
  | .obj fields =>
    match List.lookup "resources" fields with
    | none => true
    | some res =>
      match res with
      | .obj rfields =>
        match List.lookup "core" rfields with
        | none => true
        | some core => core.isObj
      | _ => false
  | _ => false

/-- The Authorization entry the amended header claim expects:
`token <value>` exactly when the environment variable is set to a
non-empty value. -/
def expectedAuth (token : Option String) : Option String :=
  match token with
  | none => none
  | some v => if v.isEmpty then none else some ("token " ++ v)

/-- Shape condition on a retry outcome: when it is a 200 response, its
body satisfies `rateLimitBodySafe`; errors and other statuses are
unconstrained. -/
def attemptBodySafe (a : Attempt) : Bool :=
  match a with
  | Except.error _ => true
  | Except.ok r => if r.status_code = 200 then rateLimitBodySafe r.body else true

/-- When the current attempt completes, the loop stops at once with that
response, whatever fuel remains. -/
theorem retryAux_ok (t : Transport) (δ : ℚ) (idx n : Nat) (r : Response)
    (h : t idx = Except.ok r) :
    retryAux t δ idx n = ⟨Except.ok r, 1, []⟩ := by
  cases n with
  | zero => simp [retryAux, h]
  | succ n => simp [retryAux, h]

/-- When the current attempt raises and fuel remains, the loop sleeps
once and continues at the next index. -/
theorem retryAux_err (t : Transport) (δ : ℚ) (idx n : Nat) (e : TransportError)
    (h : t idx = Except.error e) :
    retryAux t δ idx (n + 1) =
      ⟨(retryAux t δ (idx + 1) n).result,
       (retryAux t δ (idx + 1) n).attempts + 1,
       δ :: (retryAux t δ (idx + 1) n).delays⟩ := by
  simp [retryAux, h]

/-- The loop always makes at least one attempt. -/
theorem retryAux_attempts_pos (t : Transport) (δ : ℚ) :
    ∀ n idx, 1 ≤ (retryAux t δ idx n).attempts := by
  intro n
  induction n with
  | zero => intro idx; simp [retryAux]
  | succ n ih =>
    intro idx
    cases h : t idx with
    | ok r => simp [retryAux, h]
    | error e =>
      have := ih (idx + 1)
      simp [retryAux, h]

/-- The loop makes at most `n + 1` attempts when `n` units of fuel
remain after the current attempt. -/
theorem retryAux_attempts_le (t : Transport) (δ : ℚ) :
    ∀ n idx, (retryAux t δ idx n).attempts ≤ n + 1 := by
  intro n
  induction n with
  | zero => intro idx; simp [retryAux]
  | succ n ih =>
    intro idx
    cases h : t idx with
    | ok r => simp [retryAux, h]
    | error e =>
      have := ih (idx + 1)
      simp [retryAux, h]
      omega

/-- Every sleep of the loop has the same fixed duration: the delays are
exactly one copy of `δ` per retry. -/
theorem retryAux_delays_eq (t : Transport) (δ : ℚ) :
    ∀ n idx, (retryAux t δ idx n).delays
      = List.replicate ((retryAux t δ idx n).attempts - 1) δ := by
  intro n
  induction n with
  | zero => intro idx; simp [retryAux]
  | succ n ih =>
    intro idx
    cases h : t idx with
    | ok r => simp [retryAux, h]
    | error e =>
      have hpos := retryAux_attempts_pos t δ n (idx + 1)
      cases hx : (retryAux t δ (idx + 1) n).attempts with
      | zero => omega
      | succ m => simp [retryAux, h, ih (idx + 1), hx, List.replicate_succ]

/-- When every attempt in the remaining budget raises, the loop spends
the whole budget and ends with the error of the last attempt. -/
theorem retryAux_all_error (t : Transport) (δ : ℚ) (f : Nat → TransportError) :
    ∀ n idx, (∀ j, j ≤ n → t (idx + j) = Except.error (f (idx + j))) →
      retryAux t δ idx n = ⟨Except.error (f (idx + n)), n + 1, List.replicate n δ⟩ := by
  intro n
  induction n with
  | zero =>
    intro idx h
    have h0 : t idx = Except.error (f idx) := by simpa using h 0 (Nat.le_refl 0)
    simp [retryAux, h0]
  | succ n ih =>
    intro idx h
    have h0 : t idx = Except.error (f idx) := by simpa using h 0 (Nat.zero_le _)
    rw [retryAux_err t δ idx n _ h0]
    have hrec := ih (idx + 1) (fun j hj => by
      have h2 := h (j + 1) (Nat.succ_le_succ hj)
      have e2 : idx + (j + 1) = idx + 1 + j := by omega
      rw [e2] at h2
      exact h2)
    rw [hrec]
    have e3 : idx + 1 + n = idx + (n + 1) := by omega
    simp [e3, List.replicate_succ]

/-- When the first `k` attempts raise and attempt `k` completes with
`r`, the loop returns `r` after `k` sleeps, provided the budget allows
attempt `k`. -/
theorem retryAux_success (t : Transport) (δ : ℚ) (r : Response) :
    ∀ k idx n, (∀ j, j < k → ∃ err, t (idx + j) = Except.error err) →
      t (idx + k) = Except.ok r → k ≤ n →
      retryAux t δ idx n = ⟨Except.ok r, k + 1, List.replicate k δ⟩ := by
  intro k
  induction k with
  | zero =>
    intro idx n _ hok _
    simp only [Nat.add_zero] at hok
    simp [retryAux_ok t δ idx n r hok]
  | succ k ih =>
    intro idx n herr hok hkn
    obtain ⟨err, h0⟩ : ∃ err, t idx = Except.error err := by
      have := herr 0 (Nat.succ_pos k)
      simpa using this
    cases n with
    | zero => omega
    | succ n =>
      rw [retryAux_err t δ idx n err h0]
      have e1 : idx + (k + 1) = idx + 1 + k := by omega
      rw [e1] at hok
      have hrec := ih (idx + 1) n
        (fun j hj => by
          have h2 := herr (j + 1) (by omega)
          have e2 : idx + (j + 1) = idx + 1 + j := by omega
          rw [e2] at h2
          exact h2)
        hok (by omega)
      rw [hrec]
      simp [List.replicate_succ]

/-- C2: if the transport raises on exactly the first `k` attempts
(`k < maxAttempts`) and attempt `k` completes with response `r`,
`retry_request` returns `r` successfully after exactly `k` delays; in
particular with `k = 0` (the transport never raises) it returns on the
first attempt with no delay incurred. -/
theorem retry_request_success_after_k_failures (t : Transport) (δ : ℚ) (m k : Nat)
    (r : Response) (hk : k < m)
    (herr : ∀ j, j < k → ∃ err, t j = Except.error err)
    (hok : t k = Except.ok r) :
    retry_request t δ m = ⟨Except.ok r, k + 1, List.replicate k δ⟩ := by
  unfold retry_request
  apply retryAux_success t δ r k 0 (m - 1)
  · intro j hj
    simpa using herr j hj
  · simpa using hok
  · omega

/-- Witness for C2: a transport raising `ConnectionError` on the first
attempt and completing on the second makes `retry_request` return that
response after one delay; and one that never raises returns on the first
attempt with no delay. -/
theorem retry_request_success_after_k_failures_witness :
    retry_request
        (fun i => if i = 0 then Except.error ⟨"ConnectionError"⟩
                  else Except.ok ⟨200, Json.obj []⟩) 1 3
      = ⟨Except.ok ⟨200, Json.obj []⟩, 2, [1]⟩ ∧
    retry_request (fun _ => Except.ok ⟨200, Json.obj []⟩) 1 3
      = ⟨Except.ok ⟨200, Json.obj []⟩, 1, []⟩ := by
  constructor
  · have h := retry_request_success_after_k_failures
      (fun i => if i = 0 then Except.error ⟨"ConnectionError"⟩
                else Except.ok ⟨200, Json.obj []⟩)
      1 3 1 ⟨200, Json.obj []⟩ (by omega)
      (fun j hj => ⟨⟨"ConnectionError"⟩, by
        have hj0 : j = 0 := by omega
        subst hj0
        rfl⟩)
      rfl
    simpa using h
  · have h := retry_request_success_after_k_failures
      (fun _ => Except.ok ⟨200, Json.obj []⟩)
      1 3 0 ⟨200, Json.obj []⟩ (by omega)
      (fun j hj => absurd hj (by omega))
      rfl
    simpa using h

/-- C3: if every attempt of `retry_request` raises a transport-level
error, the call re-raises the error captured on the last attempt and
makes exactly `maxAttempts` attempts, so no further attempt occurs after
the budget is exhausted. -/
theorem retry_request_exhaustion_raises_last (t : Transport) (δ : ℚ) (m : Nat)
    (f : Nat → TransportError) (hm : 0 < m)
    (herr : ∀ j, j < m → t j = Except.error (f j)) :
    retry_request t δ m = ⟨Except.error (f (m - 1)), m, List.replicate (m - 1) δ⟩ := by
  unfold retry_request
  have h := retryAux_all_error t δ f (m - 1) 0 (fun j hj => by
    have h2 := herr j (by omega)
    simpa using h2)
  rw [h]
  have e1 : m - 1 + 1 = m := by omega
  simp [e1]

/-- Witness for C3: a transport raising `ConnectionError` on every
attempt exhausts the default budget of 3 attempts and the error is
re-raised. -/
theorem retry_request_exhaustion_raises_last_witness :
    retry_request (fun _ => Except.error ⟨"ConnectionError"⟩) 1 3
      = ⟨Except.error ⟨"ConnectionError"⟩, 3, [1, 1]⟩ := by
  have h := retry_request_exhaustion_raises_last
    (fun _ => Except.error ⟨"ConnectionError"⟩) 1 3
    (fun _ => ⟨"ConnectionError"⟩) (by omega) (fun j _ => rfl)
  simpa using h

/-- C4: whenever an attempt of the transport produces a response without
raising (all earlier attempts having raised), `retry_request` returns
that response as-is, whatever its status code — a non-200 response is
neither retried nor converted into a raised error, and no further
attempt is made. -/
theorem retry_request_returns_response_as_is (t : Transport) (δ : ℚ) (m i : Nat)
    (r : Response) (hi : i < m)
    (hprev : ∀ j, j < i → ∃ err, t j = Except.error err)
    (hok : t i = Except.ok r) :
    (retry_request t δ m).result = Except.ok r ∧
      (retry_request t δ m).attempts = i + 1 := by
  have h : retryAux t δ 0 (m - 1) = ⟨Except.ok r, i + 1, List.replicate i δ⟩ :=
    retryAux_success t δ r i 0 (m - 1)
      (fun j hj => by simpa using hprev j hj) (by simpa using hok) (by omega)
  unfold retry_request
  rw [h]
  exact ⟨rfl, rfl⟩

/-- Witness for C4: a transport answering 404 on the first attempt makes
`retry_request` return the 404 response itself after a single attempt —
the status code triggers neither a retry nor an error. -/
theorem retry_request_returns_response_as_is_witness :
    (retry_request (fun _ => Except.ok ⟨404, Json.obj []⟩) 1 3).result
        = Except.ok ⟨404, Json.obj []⟩ ∧
      (retry_request (fun _ => Except.ok ⟨404, Json.obj []⟩) 1 3).attempts = 1 :=
  retry_request_returns_response_as_is (fun _ => Except.ok ⟨404, Json.obj []⟩) 1 3 0
    ⟨404, Json.obj []⟩ (by omega) (fun j hj => absurd hj (by omega)) rfl

/-- C6: the transport is invoked at most `maxAttempts` times in total
(the first attempt included), and under the default policy declared at
the decorator site the total is at most 3 attempts; the loop terminates
within that budget (it is a total function). -/
theorem retry_request_attempt_budget (t : Transport) (δ : ℚ) (m : Nat) (hm : 0 < m) :
    (retry_request t δ m).attempts ≤ m ∧
      (retry_request t δ defaultMaxAttempts).attempts ≤ 3 := by
  constructor
  · have h := retryAux_attempts_le t δ (m - 1) 0
    unfold retry_request
    omega
  · have h := retryAux_attempts_le t δ (defaultMaxAttempts - 1) 0
    unfold retry_request
    simpa [defaultMaxAttempts] using h

/-- Witness for C6: an always-failing transport stays within a budget of
2 attempts, and within the default budget of 3. -/
theorem retry_request_attempt_budget_witness :
    (retry_request (fun _ => Except.error ⟨"ConnectionError"⟩) 1 2).attempts ≤ 2 ∧
      (retry_request (fun _ => Except.error ⟨"ConnectionError"⟩) 1 defaultMaxAttempts).attempts ≤ 3 :=
  retry_request_attempt_budget (fun _ => Except.error ⟨"ConnectionError"⟩) 1 2 (by omega)

/-- C7: every delay inserted between consecutive attempts equals the
fixed `delay` parameter — the delays are a replicate of one constant
independent of the attempt index, so there is no exponential backoff and
no jitter — and the default delay is 1.0 time-unit. -/
theorem retry_request_constant_delay (t : Transport) (δ : ℚ) (m : Nat) :
    (retry_request t δ m).delays
        = List.replicate ((retry_request t δ m).attempts - 1) δ ∧
      defaultRetryDelay = 1 := by
  refine ⟨?_, rfl⟩
  unfold retry_request
  exact retryAux_delays_eq t δ (m - 1) 0

/-- C1: for every repository identifier, `check_github_repo_exists`
returns `True` when the retry-wrapped GET completes with status 200,
returns `False` and emits a warning when it completes with status 404,
and returns `False` (with a warning, and without raising) when the
transport raises on every attempt so that the retry wrapper re-raises. -/
theorem check_github_repo_exists_spec (repo : String) (token : Option String) (s : Session) :
    (∀ r : Response,
      (retry_request (s (repo_exists_call repo token)) defaultRetryDelay defaultMaxAttempts).result
          = Except.ok r →
      r.status_code = 200 →
      check_github_repo_exists repo token s = (true, [])) ∧
    (∀ r : Response,
      (retry_request (s (repo_exists_call repo token)) defaultRetryDelay defaultMaxAttempts).result
          = Except.ok r →
      r.status_code = 404 →
      check_github_repo_exists repo token s =
        (false, [⟨LogLevel.warning, "⚠️ 저장소 \x27" ++ repo ++ "\x27가 존재하지 않습니다."⟩])) ∧
    (∀ e : TransportError,
      (retry_request (s (repo_exists_call repo token)) defaultRetryDelay defaultMaxAttempts).result
          = Except.error e →
      check_github_repo_exists repo token s =
        (false, [⟨LogLevel.warning, "⚠️ 저장소 존재 확인 API 요청 자체가 실패했습니다: " ++ e.msg⟩])) := by
  refine ⟨?_, ?_, ?_⟩
  · intro r h hst
    simp [check_github_repo_exists, h, hst]
  · intro r h hst
    simp [check_github_repo_exists, h, hst]
  · intro e h
    simp [check_github_repo_exists, h]

/-- Witness for C1: with a transport answering 200 the check returns
`True`; with 404 it returns `False` and warns; with `ConnectionError`
on all 3 attempts it returns `False` (no exception escapes). -/
theorem check_github_repo_exists_spec_witness :
    check_github_repo_exists "octocat/Hello-World" none
        (fun _ _ => Except.ok ⟨200, Json.obj []⟩) = (true, []) ∧
    check_github_repo_exists "octocat/Hello-World" none
        (fun _ _ => Except.ok ⟨404, Json.obj []⟩) =
      (false, [⟨LogLevel.warning,
        "⚠️ 저장소 \x27octocat/Hello-World\x27가 존재하지 않습니다."⟩]) ∧
    check_github_repo_exists "octocat/Hello-World" none
        (fun _ _ => Except.error ⟨"ConnectionError"⟩) =
      (false, [⟨LogLevel.warning,
        "⚠️ 저장소 존재 확인 API 요청 자체가 실패했습니다: ConnectionError"⟩]) :=
  ⟨(check_github_repo_exists_spec "octocat/Hello-World" none
      (fun _ _ => Except.ok ⟨200, Json.obj []⟩)).1 ⟨200, Json.obj []⟩ rfl rfl,
   (check_github_repo_exists_spec "octocat/Hello-World" none
      (fun _ _ => Except.ok ⟨404, Json.obj []⟩)).2.1 ⟨404, Json.obj []⟩ rfl rfl,
   (check_github_repo_exists_spec "octocat/Hello-World" none
      (fun _ _ => Except.error ⟨"ConnectionError"⟩)).2.2 ⟨"ConnectionError"⟩ rfl⟩

/-- C5: `validate_token` terminates the process with a non-zero exit
status both when the retry-wrapped GET to the user endpoint raises after
exhausting its attempts and when it completes with a status other than
200; on a 200 response it returns normally. -/
theorem validate_token_spec (token : Option String) (s : Session) :
    (∀ e : TransportError,
      (retry_request (s (validate_token_call token)) defaultRetryDelay defaultMaxAttempts).result
          = Except.error e →
      ∃ c, (validate_token token s).fst = ValidateOutcome.exit c ∧ c ≠ 0) ∧
    (∀ r : Response,
      (retry_request (s (validate_token_call token)) defaultRetryDelay defaultMaxAttempts).result
          = Except.ok r →
      r.status_code ≠ 200 →
      ∃ c, (validate_token token s).fst = ValidateOutcome.exit c ∧ c ≠ 0) ∧
    (∀ r : Response,
      (retry_request (s (validate_token_call token)) defaultRetryDelay defaultMaxAttempts).result
          = Except.ok r →
      r.status_code = 200 →
      (validate_token token s).fst = ValidateOutcome.ok) := by
  refine ⟨?_, ?_, ?_⟩
  · intro e h
    exact ⟨1, by simp [validate_token, h], by omega⟩
  · intro r h hst
    exact ⟨1, by simp [validate_token, h, hst], by omega⟩
  · intro r h hst
    simp [validate_token, h, hst]

/-- Witness for C5: a transport raising on all attempts and one
answering 401 both lead to `sys.exit(1)`; a transport answering 200
lets `validate_token` return normally. -/
theorem validate_token_spec_witness :
    (∃ c, (validate_token none (fun _ _ => Except.error ⟨"ConnectionError"⟩)).fst
        = ValidateOutcome.exit c ∧ c ≠ 0) ∧
    (∃ c, (validate_token none (fun _ _ => Except.ok ⟨401, Json.obj []⟩)).fst
        = ValidateOutcome.exit c ∧ c ≠ 0) ∧
    (validate_token none (fun _ _ => Except.ok ⟨200, Json.obj []⟩)).fst
        = ValidateOutcome.ok :=
  ⟨(validate_token_spec none (fun _ _ => Except.error ⟨"ConnectionError"⟩)).1
      ⟨"ConnectionError"⟩ rfl,
   (validate_token_spec none (fun _ _ => Except.ok ⟨401, Json.obj []⟩)).2.1
      ⟨401, Json.obj []⟩ rfl (by decide),
   (validate_token_spec none (fun _ _ => Except.ok ⟨200, Json.obj []⟩)).2.2
      ⟨200, Json.obj []⟩ rfl rfl⟩

/-- The header dict built for a present, non-empty token. -/
theorem buildHeaders_some_nonempty (v : String) (hv : v.isEmpty = false) :
    buildHeaders (some v)
      = [("Accept", "application/vnd.github+json"), ("User-Agent", "reposcore-py"),
         ("Authorization", "token " ++ v)] := by
  simp [buildHeaders, hv]

/-- The header dict built for a present but empty token: the falsy check
`if token:` skips the Authorization header. -/
theorem buildHeaders_some_empty (v : String) (hv : v.isEmpty = true) :
    buildHeaders (some v)
      = [("Accept", "application/vnd.github+json"), ("User-Agent", "reposcore-py")] := by
  simp [buildHeaders, hv]

/-- C8 counterexample: with `GITHUB_TOKEN` set to the empty string the
environment variable is set, yet the built headers carry no
`Authorization` entry, against the claim that the header is present
exactly when the variable is set. -/
theorem auth_header_empty_token_counterexample :
    (some "" : Option String) ≠ none ∧
      List.lookup "Authorization" (buildHeaders (some "")) = none :=
  ⟨by simp, rfl⟩

/-- C8 (amended): every GET call issued by `validate_token`,
`check_github_repo_exists` and `check_rate_limit` goes to its documented
URL and carries the built headers, which always contain
`Accept: application/vnd.github+json` and the `User-Agent` product name,
and contain `Authorization: token <value>` exactly when `GITHUB_TOKEN`
is set to a non-empty value; when it is absent or empty no
`Authorization` header is sent. -/
theorem request_headers_spec (repo : String) (token : Option String) :
    (validate_token_call token).url = "https://api.github.com/user" ∧
    (repo_exists_call repo token).url = "https://api.github.com/repos/" ++ repo ∧
    (rate_limit_call token).url = "https://api.github.com/rate_limit" ∧
    (validate_token_call token).headers = some (buildHeaders token) ∧
    (repo_exists_call repo token).headers = some (buildHeaders token) ∧
    (rate_limit_call token).headers = some (buildHeaders token) ∧
    List.lookup "Accept" (buildHeaders token) = some "application/vnd.github+json" ∧
    List.lookup "User-Agent" (buildHeaders token) = some "reposcore-py" ∧
    List.lookup "Authorization" (buildHeaders token) = expectedAuth token := by
  refine ⟨rfl, rfl, rfl, rfl, rfl, rfl, ?_, ?_, ?_⟩
  · cases token with
    | none => rfl
    | some v =>
      cases hv : v.isEmpty with
      | true => rw [buildHeaders_some_empty v hv]; rfl
      | false => rw [buildHeaders_some_nonempty v hv]; rfl
  · cases token with
    | none => rfl
    | some v =>
      cases hv : v.isEmpty with
      | true => rw [buildHeaders_some_empty v hv]; rfl
      | false => rw [buildHeaders_some_nonempty v hv]; rfl
  · cases token with
    | none => rfl
    | some v =>
      cases hv : v.isEmpty with
      | true =>
        rw [buildHeaders_some_empty v hv]
        simp [expectedAuth, hv]
      | false =>
        rw [buildHeaders_some_nonempty v hv]
        simp only [expectedAuth, hv, Bool.false_eq_true, if_false]
        rfl

/-- Every character kept by `takeWhile` satisfies the predicate. -/
theorem all_takeWhile_self (p : Char → Bool) :
    ∀ l : List Char, (l.takeWhile p).all p = true := by
  intro l
  induction l with
  | nil => rfl
  | cons x xs ih =>
    cases hx : p x with
    | true => simp [List.takeWhile_cons, hx, ih]
    | false => simp [List.takeWhile_cons, hx]

/-- Applying `takeWhile` over a satisfying prefix followed by a failing character
keeps exactly the prefix, and `dropWhile` keeps the rest. -/
theorem takeWhile_dropWhile_split (p : Char → Bool) (c : Char) (hc : p c = false) :
    ∀ a b : List Char, a.all p = true →
      ((a ++ c :: b).takeWhile p = a ∧ (a ++ c :: b).dropWhile p = c :: b) := by
  intro a
  induction a with
  | nil =>
    intro b _
    simp [List.takeWhile_cons, List.dropWhile_cons, hc]
  | cons x xs ih =>
    intro b ha
    rw [List.all_cons, Bool.and_eq_true] at ha
    obtain ⟨hx, hxs⟩ := ha
    have := ih b hxs
    simp [List.takeWhile_cons, List.dropWhile_cons, hx, this.1, this.2]

/-- C9: for every word-character table `w` in which `/` is not a word
character — as in the Unicode-aware `\w` of Python — `validate_repo_format`
returns `True` exactly for the strings consisting of two non-empty
segments of `[\w\-]` characters separated by a single `/` (a full match
of the pattern); for every other string it returns `False` and prints
the format message. -/
theorem validate_repo_format_spec (w : Char → Bool) (hw : w '/' = false) (repo : String) :
    ((validate_repo_format w repo).fst = true ↔
      ∃ a b : List Char, repo.data = a ++ '/' :: b ∧ a ≠ [] ∧ b ≠ [] ∧
        a.all (wordOrHyphen w) = true ∧ b.all (wordOrHyphen w) = true) ∧
    ((validate_repo_format w repo).fst = false →
      (validate_repo_format w repo).snd
        = ["저장소 형식이 올바르지 않습니다. \x27owner/repo\x27 형식으로 입력해주세요."]) ∧
    ((validate_repo_format w repo).fst = true → (validate_repo_format w repo).snd = []) := by
  have hslash : wordOrHyphen w '/' = false := by simp [wordOrHyphen, hw]
  have hmain : repoFullmatch w repo.data = true ↔
      ∃ a b : List Char, repo.data = a ++ '/' :: b ∧ a ≠ [] ∧ b ≠ [] ∧
        a.all (wordOrHyphen w) = true ∧ b.all (wordOrHyphen w) = true := by
    constructor
    · intro h
      unfold repoFullmatch at h
      cases hrest : repo.data.dropWhile (wordOrHyphen w) with
      | nil => rw [hrest] at h; simp at h
      | cons c second =>
        rw [hrest] at h
        simp only [Bool.and_eq_true, decide_eq_true_eq] at h
        obtain ⟨hfirst, ⟨hc, hsec⟩, hall⟩ := h
        subst hc
        refine ⟨repo.data.takeWhile (wordOrHyphen w), second, ?_, hfirst, hsec, ?_, hall⟩
        · rw [← hrest, List.takeWhile_append_dropWhile]
        · exact all_takeWhile_self (wordOrHyphen w) repo.data
    · rintro ⟨a, b, hdecomp, ha, hb, hall_a, hall_b⟩
      have hsplit := takeWhile_dropWhile_split (wordOrHyphen w) '/' hslash a b hall_a
      unfold repoFullmatch
      rw [hdecomp, hsplit.1, hsplit.2]
      simp [ha, hb, hall_b]
  refine ⟨?_, ?_, ?_⟩
  · unfold validate_repo_format
    cases hfm : repoFullmatch w repo.data with
    | true => simpa [hfm] using hmain
    | false =>
      simp only [hfm, if_false, Bool.false_eq_true]
      constructor
      · intro hcontr
        exact absurd hcontr (by simp)
      · intro hex
        exact absurd (hmain.mpr hex) (by simp [hfm])
  · intro hfalse
    unfold validate_repo_format at hfalse ⊢
    cases hfm : repoFullmatch w repo.data with
    | true => rw [hfm] at hfalse; simp at hfalse
    | false => rfl
  · intro htrue
    unfold validate_repo_format at htrue ⊢
    cases hfm : repoFullmatch w repo.data with
    | true => rfl
    | false => rw [hfm] at htrue; simp at htrue

/-- Witness for C9: at the ASCII restriction of the table (which agrees
with the Unicode one on these ASCII inputs and satisfies the slash
hypothesis), `octocat/Hello-World` is accepted via the characterization,
while `owner/repo.name` (a dot is not a word character) is rejected and
the format message is printed. -/
theorem validate_repo_format_spec_witness :
    asciiWordChar '/' = false ∧
      (validate_repo_format asciiWordChar "octocat/Hello-World").fst = true ∧
      (validate_repo_format asciiWordChar "owner/repo.name").fst = false ∧
      (validate_repo_format asciiWordChar "owner/repo.name").snd
        = ["저장소 형식이 올바르지 않습니다. \x27owner/repo\x27 형식으로 입력해주세요."] :=
  ⟨by decide,
   (validate_repo_format_spec asciiWordChar (by decide) "octocat/Hello-World").1.mpr
      ⟨"octocat".data, "Hello-World".data, by decide, by decide, by decide, by decide, by decide⟩,
   by decide,
   (validate_repo_format_spec asciiWordChar (by decide) "owner/repo.name").2.1 (by decide)⟩

/-- A `.get` with a default on a value known to be a dict always
succeeds. -/
theorem dictGet_of_isObj (j : Json) (k : String) (d : Json) (h : j.isObj = true) :
    ∃ v, dictGet j k d = Except.ok v := by
  cases j with
  | obj fields => exact ⟨(List.lookup k fields).getD d, rfl⟩
  | null => simp [Json.isObj] at h
  | num n => simp [Json.isObj] at h
  | str s => simp [Json.isObj] at h

/-- Under `rateLimitBodySafe`, the `resources` and `core` extractions of
`check_rate_limit` succeed and yield a dict for `core`. -/
theorem rateLimitBodySafe_chain (j : Json) (h : rateLimitBodySafe j = true) :
    ∃ res core, dictGet j "resources" (Json.obj []) = Except.ok res ∧
      dictGet res "core" (Json.obj []) = Except.ok core ∧ core.isObj = true := by
  cases j with
  | obj fields =>
    cases hres : List.lookup "resources" fields with
    | none => exact ⟨Json.obj [], Json.obj [], by simp [dictGet, hres], rfl, rfl⟩
    | some res =>
      cases res with
      | obj rfields =>
        cases hcore : List.lookup "core" rfields with
        | none =>
          exact ⟨Json.obj rfields, Json.obj [],
            by simp [dictGet, hres], by simp [dictGet, hcore], rfl⟩
        | some core =>
          have hc : core.isObj = true := by
            simpa [rateLimitBodySafe, hres, hcore] using h
          exact ⟨Json.obj rfields, core,
            by simp [dictGet, hres], by simp [dictGet, hcore], hc⟩
      | null => simp [rateLimitBodySafe, hres] at h
      | num n => simp [rateLimitBodySafe, hres] at h
      | str s => simp [rateLimitBodySafe, hres] at h
  | null => simp [rateLimitBodySafe] at h
  | num n => simp [rateLimitBodySafe] at h
  | str s => simp [rateLimitBodySafe] at h

/-- C10 counterexample: a transport answering 200 with the JSON body `0`
(not an object) makes `data.get("resources", {})` raise
`AttributeError`, which `check_rate_limit` does not catch — against the
claim that it never raises and always returns `None`. -/
theorem check_rate_limit_raises_counterexample :
    (check_rate_limit none (fun _ _ => Except.ok ⟨200, Json.num 0⟩)).fst
        = Except.error PyErr.attributeError ∧
      (check_rate_limit none (fun _ _ => Except.ok ⟨200, Json.num 0⟩)).fst
        ≠ Except.ok () :=
  ⟨rfl, fun hc => Except.noConfusion (Eq.trans (Eq.symm rfl) hc)⟩

/-- C10 (amended): `check_rate_limit` returns `None` without raising
provided the decoded JSON body of a 200 response is an object whose
`resources` value — and the `core` value of that object — is an object when
present: a transport failure after exhausted retries is caught and
logged as an error; a non-200 response is logged as an error; and on a
200 response with an object body lacking the
`resources`/`core`/`remaining`/`limit` keys the missing values are
reported as `N/A` rather than causing a failure. -/
theorem check_rate_limit_spec (token : Option String) (s : Session) :
    (attemptBodySafe
        (retry_request (s (rate_limit_call token)) defaultRetryDelay defaultMaxAttempts).result
          = true →
      (check_rate_limit token s).fst = Except.ok ()) ∧
    (∀ e : TransportError,
      (retry_request (s (rate_limit_call token)) defaultRetryDelay defaultMaxAttempts).result
          = Except.error e →
      check_rate_limit token s =
        (Except.ok (),
         [⟨LogLevel.error, "API 요청 제한 정보를 가져오는데 실패했습니다: " ++ e.msg⟩])) ∧
    (∀ r : Response,
      (retry_request (s (rate_limit_call token)) defaultRetryDelay defaultMaxAttempts).result
          = Except.ok r →
      r.status_code ≠ 200 →
      check_rate_limit token s =
        (Except.ok (),
         [⟨LogLevel.error,
           "API 요청 제한 정보를 가져오는데 실패했습니다 (status code: "
             ++ toString r.status_code ++ ")."⟩])) ∧
    (∀ r : Response,
      (retry_request (s (rate_limit_call token)) defaultRetryDelay defaultMaxAttempts).result
          = Except.ok r →
      r.status_code = 200 →
      r.body = Json.obj [] →
      check_rate_limit token s =
        (Except.ok (),
         [⟨LogLevel.info, "GitHub API 요청 가능 횟수: N/A / N/A"⟩])) := by
  refine ⟨?_, ?_, ?_, ?_⟩
  · intro hsafe
    cases hres0 : (retry_request (s (rate_limit_call token)) defaultRetryDelay defaultMaxAttempts).result with
    | error e => simp [check_rate_limit, hres0]
    | ok r =>
      rw [hres0] at hsafe
      by_cases hst : r.status_code = 200
      · have hbody : rateLimitBodySafe r.body = true := by
          simpa [attemptBodySafe, hst] using hsafe
        obtain ⟨res, core, h1, h2, h3⟩ := rateLimitBodySafe_chain r.body hbody
        obtain ⟨rem, h4⟩ := dictGet_of_isObj core "remaining" (Json.str "N/A") h3
        obtain ⟨lim, h5⟩ := dictGet_of_isObj core "limit" (Json.str "N/A") h3
        simp [check_rate_limit, hres0, hst, h1, h2, h4, h5]
      · simp [check_rate_limit, hres0, hst]
  · intro e h
    simp [check_rate_limit, h]
  · intro r h hst
    simp [check_rate_limit, h, hst]
  · intro r h hst hbody
    simp [check_rate_limit, h, hst, hbody, dictGet, pyStr]

/-- Witness for C10: a 200 response with the empty-object body is
handled without raising and reports `N/A / N/A`; an exhausted transport
is caught and logged. -/
theorem check_rate_limit_spec_witness :
    (check_rate_limit none (fun _ _ => Except.ok ⟨200, Json.obj []⟩)).fst
        = Except.ok () ∧
      check_rate_limit none (fun _ _ => Except.error ⟨"ConnectionError"⟩)
        = (Except.ok (),
           [⟨LogLevel.error,
             "API 요청 제한 정보를 가져오는데 실패했습니다: ConnectionError"⟩]) ∧
      check_rate_limit none (fun _ _ => Except.ok ⟨200, Json.obj []⟩)
        = (Except.ok (), [⟨LogLevel.info, "GitHub API 요청 가능 횟수: N/A / N/A"⟩]) :=
  ⟨(check_rate_limit_spec none (fun _ _ => Except.ok ⟨200, Json.obj []⟩)).1 rfl,
   (check_rate_limit_spec none (fun _ _ => Except.error ⟨"ConnectionError"⟩)).2.1
      ⟨"ConnectionError"⟩ rfl,
   (check_rate_limit_spec none (fun _ _ => Except.ok ⟨200, Json.obj []⟩)).2.2.2
      ⟨200, Json.obj []⟩ rfl rfl rfl⟩

end Reposcore
